import Mathlib

set_option maxRecDepth 8000

/-!
Shallow embedding of the OISP spec registry pipeline scripts
(scripts/compare-models.py, scripts/sync-models.py, scripts/build-bundle.py)
and proofs about them.

Conventions used throughout:
- Python dicts parsed from JSON/YAML are modelled as association lists
  (`List (String × α)`) whose keys are distinct in any actual input
  (JSON objects cannot repeat keys); `dict.get(k)` is `List.lookup` and
  `dict.get(k, default)` is `List.lookup` followed by `Option.getD`.
- Python floats are modelled as exact rationals (ℚ). Arithmetic on them is
  written with the executable helpers `qdiv`, `qsub`, `qmul`, `qabs` below,
  which are proved equal to the ℚ field operations (see the bridge lemmas
  `qdiv_eq`, `qsub_eq`, `qmul_eq`, `qabs_eq` in the theorems part), but
  which the kernel can evaluate on concrete inputs.
- A JSON value that may be missing is an `Option`; `None`/missing key both
  map to `none`, matching `dict.get`.
- File-system paths and network I/O are boundary operations (spec section 1)
  and are not modelled; file contents are passed as explicit arguments.
-/

/-! ## Executable rational arithmetic -/

/-- Division on ℚ, computed on numerators and denominators. Equal to `a / b`
(lemma `qdiv_eq`). -/
def qdiv (a b : ℚ) : ℚ := Rat.divInt (a.num * b.den) (a.den * b.num)

/-- Subtraction on ℚ, computed on numerators and denominators. Equal to
`a - b` (lemma `qsub_eq`). -/
def qsub (a b : ℚ) : ℚ := mkRat (a.num * b.den - b.num * a.den) (a.den * b.den)

/-- Multiplication on ℚ, computed on numerators and denominators. Equal to
`a * b` (lemma `qmul_eq`). -/
def qmul (a b : ℚ) : ℚ := mkRat (a.num * b.num) (a.den * b.den)

/-- Absolute value on ℚ, computed on the numerator. Equal to `|a|`
(lemma `qabs_eq`). -/
def qabs (a : ℚ) : ℚ := mkRat a.num.natAbs a.den

/-! ## compare-models.py -/

/-- Per-model data consumed from the models.dev upstream snapshot:
`model_data.get("cost", {})` with its `input` and `output` keys
(compare-models.py lines 39-46). A missing `cost` object is the same as one
with both keys missing, so it is flattened into the two options. -/
structure UpstreamModel where
  cost_input : Option ℚ
  cost_output : Option ℚ
deriving DecidableEq

/-- One provider object of the models.dev snapshot: its `models` dict
(compare-models.py line 38). -/
structure UpstreamProvider where
  models : List (String × UpstreamModel)
deriving DecidableEq

/-- Fields of one entry of the current registry `models` dict that the
comparator reads (compare-models.py lines 86-87). -/
structure CurrentModel where
  input_cost_per_1k : Option ℚ
  output_cost_per_1k : Option ℚ
deriving DecidableEq

/-- Default used for `current_models.get(model_key, {})`: an empty dict, on
which both cost lookups return None. -/
instance : Inhabited CurrentModel := ⟨⟨none, none⟩⟩

/-- The current OISP registry as read by the comparator: its `models` dict
and the key set of its `providers` dict (compare-models.py lines 62-63;
`current.get("models", {})` and `current.get("providers", {})`, so a missing
key is the empty dict, i.e. the empty list here). -/
structure CurrentRegistry where
  models : List (String × CurrentModel)
  providers : List String
deriving DecidableEq

/-- Cost conversion inside extract_models_from_models_dev
(compare-models.py lines 45-46):
`cost.get("input", 0) / 1000 if cost.get("input") else None`.
A missing or zero (falsy) value yields None, otherwise the value is divided
by 1000. -/
def convUpstreamCost (c : Option ℚ) : Option ℚ :=
  match c with
  | some x => if x ≠ 0 then some (qdiv x 1000) else none
  | none => none

/-- The flat per-model record produced by extract_models_from_models_dev
(compare-models.py lines 42-48). -/
structure FlatModel where
  provider : String
  model_id : String
  input_cost_per_1k : Option ℚ
  output_cost_per_1k : Option ℚ
  mode : String
deriving DecidableEq

/-- Default used for `upstream_models.get(model_key, {})`: an empty dict, on
which the cost lookups return None; the other fields are never read on the
default. -/
instance : Inhabited FlatModel := ⟨⟨"", "", none, none, ""⟩⟩

/-- extract_models_from_models_dev (compare-models.py lines 24-49): flatten
the nested models.dev snapshot into a dict keyed by `provider_id/model_id`. -/
def extract_models_from_models_dev (data : List (String × UpstreamProvider)) :
    List (String × FlatModel) :=
  (data.map (fun pd =>
    pd.2.models.map (fun md =>
      (pd.1 ++ "/" ++ md.1,
       FlatModel.mk pd.1 md.1 (convUpstreamCost md.2.cost_input)
         (convUpstreamCost md.2.cost_output) "chat")))).flatten

/-- The tolerance comparison `close` (compare-models.py lines 96-101): equal
if both absent, unequal if exactly one absent, otherwise compare with
tolerance 1e-9 (the float literal 1e-9 is modelled as the exact rational). -/
def close (a b : Option ℚ) : Bool :=
  match a, b with
  | none, none => true
  | none, some _ => false
  | some _, none => false
  | some x, some y => decide (qabs (qsub x y) < mkRat 1 1000000000)

/-- One entry of the pricing_changes list (compare-models.py lines 104-110). -/
structure PricingChange where
  model : String
  old_input : Option ℚ
  new_input : Option ℚ
  old_output : Option ℚ
  new_output : Option ℚ
deriving DecidableEq

/-- Body of the pricing-comparison loop for one model key
(compare-models.py lines 82-110): look the key up on both sides
(`.get(model_key, {})`), skip the key when both input costs are None, and
record a PricingChange when either cost pair is not close. -/
def pricingChangeAt (current_models : List (String × CurrentModel))
    (upstream_models : List (String × FlatModel)) (model_key : String) :
    Option PricingChange :=
  let current_model := (current_models.lookup model_key).getD default
  let upstream_model := (upstream_models.lookup model_key).getD default
  let current_input := current_model.input_cost_per_1k
  let current_output := current_model.output_cost_per_1k
  let upstream_input := upstream_model.input_cost_per_1k
  let upstream_output := upstream_model.output_cost_per_1k
  if current_input = none ∧ upstream_input = none then none
  else if close current_input upstream_input = false ∨
      close current_output upstream_output = false then
    some ⟨model_key, current_input, upstream_input, current_output, upstream_output⟩
  else none

/-- The structured diff computed by compare_models
(compare-models.py lines 52-110). Python iterates over sets here; sets of
dict keys are modelled as the key lists (distinct in any actual input), and
set difference and intersection as list filters, so each collection has the
same elements as in the source, in a fixed rather than arbitrary order. -/
structure CompareResult where
  new_models : List String
  removed_models : List String
  new_providers : List String
  removed_providers : List String
  pricing_changes : List PricingChange
deriving DecidableEq

/-- compare_models, pure diff part (compare-models.py lines 52-110). -/
def compare_models (current : CurrentRegistry)
    (upstream_raw : List (String × UpstreamProvider)) : CompareResult :=
  let current_models := current.models
  let current_providers := current.providers
  let upstream_models := extract_models_from_models_dev upstream_raw
  let upstream_providers := upstream_raw.map Prod.fst
  let current_model_keys := current_models.map Prod.fst
  let upstream_model_keys := upstream_models.map Prod.fst
  { new_models := upstream_model_keys.filter (fun k => !current_model_keys.contains k)
    removed_models := current_model_keys.filter (fun k => !upstream_model_keys.contains k)
    new_providers := upstream_providers.filter (fun p => !current_providers.contains p)
    removed_providers := current_providers.filter (fun p => !upstream_providers.contains p)
    pricing_changes :=
      (current_model_keys.filter (fun k => upstream_model_keys.contains k)).filterMap
        (pricingChangeAt current_models upstream_models) }

/-- `has_changes = bool(new_models or removed_models or new_providers or
pricing_changes)` (compare-models.py line 112); this is the boolean the
script returns. Note that removed_providers is not consulted. -/
def has_changes (r : CompareResult) : Bool :=
  !r.new_models.isEmpty || !r.removed_models.isEmpty || !r.new_providers.isEmpty ||
    !r.pricing_changes.isEmpty

/-- Content of the report file after compare_models runs
(compare-models.py lines 114-180): when changes were detected the rendered
markdown report is written, otherwise `Path(output_path).touch()` creates the
file empty. The markdown rendering itself is human-facing output outside the
core (spec sections 1 and 6), so it is passed in as a parameter. -/
def report_file_content (rendered_report : String) (r : CompareResult) : String :=
  if has_changes r then rendered_report else ""

/-! ## sync-models.py -/

/-- PROVIDER_MAPPING (sync-models.py lines 33-65): litellm_provider to
canonical provider name. -/
def PROVIDER_MAPPING : List (String × String) := [
  ("openai", "openai"), ("anthropic", "anthropic"), ("gemini", "google"),
  ("vertex_ai", "google"), ("vertex_ai-language-models", "google"),
  ("azure", "azure_openai"), ("azure_ai", "azure_openai"),
  ("bedrock", "aws_bedrock"), ("sagemaker", "aws_sagemaker"),
  ("cohere", "cohere"), ("cohere_chat", "cohere"), ("mistral", "mistral"),
  ("groq", "groq"), ("together_ai", "together"), ("fireworks_ai", "fireworks"),
  ("replicate", "replicate"), ("huggingface", "huggingface"),
  ("ollama", "ollama"), ("ollama_chat", "ollama"), ("lm_studio", "lmstudio"),
  ("vllm", "vllm"), ("deepseek", "deepseek"), ("perplexity", "perplexity"),
  ("anyscale", "anyscale"), ("openrouter", "openrouter"), ("ai21", "ai21"),
  ("nlp_cloud", "nlp_cloud"), ("aleph_alpha", "aleph_alpha"),
  ("cloudflare", "cloudflare"), ("voyage", "voyage"),
  ("xinference", "xinference")]

/-- CAPABILITY_MAPPING (sync-models.py lines 68-79): litellm boolean flag
name to canonical capability tag, in source order. -/
def CAPABILITY_MAPPING : List (String × String) := [
  ("supports_vision", "vision"),
  ("supports_function_calling", "function_calling"),
  ("supports_parallel_function_calling", "parallel_function_calling"),
  ("supports_system_messages", "system_messages"),
  ("supports_response_schema", "json_mode"),
  ("supports_prompt_caching", "prompt_caching"),
  ("supports_reasoning", "reasoning"),
  ("supports_web_search", "web_search"),
  ("supports_audio_input", "audio_input"),
  ("supports_audio_output", "audio_output")]

/-- MODE_MAPPING (sync-models.py lines 82-91). -/
def MODE_MAPPING : List (String × String) := [
  ("chat", "chat"), ("completion", "completion"), ("embedding", "embedding"),
  ("image_generation", "image"), ("audio_transcription", "audio_transcription"),
  ("audio_speech", "audio_speech"), ("moderation", "moderation"),
  ("rerank", "rerank")]

/-- Floor of a rational, computed with Int.fdiv (equal to the Mathlib floor,
lemma `ratFloor_eq`). -/
def ratFloor (q : ℚ) : ℤ := q.num.fdiv q.den

/-- The Python builtin round applied to an exact rational: round half to
even, as the Python documentation specifies for round. -/
def pythonRound (q : ℚ) : ℤ :=
  let f := ratFloor q
  if qsub q (Rat.divInt f 1) < mkRat 1 2 then f
  else if mkRat 1 2 < qsub q (Rat.divInt f 1) then f + 1
  else if f % 2 = 0 then f else f + 1

/-- Python `round(x, ndigits)` on an exact rational: scale by `10 ^ ndigits`,
round half to even, scale back. -/
def round_to (q : ℚ) (ndigits : ℕ) : ℚ :=
  Rat.divInt (pythonRound (qmul q (Rat.divInt ((10 ^ ndigits : ℕ) : ℤ) 1)))
    ((10 ^ ndigits : ℕ) : ℤ)

/-- The attributes of one upstream LiteLLM catalog entry that
parse_model_entry consumes (sync-models.py lines 124-183).
`litellm_provider` is read with `entry.get("litellm_provider", "")` and then
only tested for truthiness, so a missing key and an empty string are
identified and the field is a plain String. The capability flags are read
with `entry.get(flag)` and tested for truthiness, modelled as an association
list of booleans (`flags`); a missing flag is falsy. -/
structure LiteLLMEntry where
  litellm_provider : String
  mode : Option String
  max_input_tokens : Option ℤ
  max_output_tokens : Option ℤ
  max_tokens : Option ℤ
  input_cost_per_token : Option ℚ
  output_cost_per_token : Option ℚ
  flags : List (String × Bool)
  deprecation_date : Option String
deriving DecidableEq

/-- The OISP model record built by parse_model_entry
(sync-models.py lines 149-183). Keys that the Python dict only receives
conditionally are Options; the `deprecated` key is present exactly when it
would be true, so it is a Bool defaulting to false. -/
structure ModelInfo where
  id : String
  litellm_id : String
  provider : String
  mode : String
  max_input_tokens : Option ℤ
  max_output_tokens : Option ℤ
  input_cost_per_1k : Option ℚ
  output_cost_per_1k : Option ℚ
  capabilities : Option (List String)
  deprecated : Bool
  deprecation_date : Option String
deriving DecidableEq

/-- The record-building part of parse_model_entry
(sync-models.py lines 139-183), reached when no exclusion rule fired. -/
def build_model_info (model_id : String) (entry : LiteLLMEntry) : ModelInfo :=
  let provider := (PROVIDER_MAPPING.lookup entry.litellm_provider).getD entry.litellm_provider
  let lpfx := entry.litellm_provider.data ++ ['/']
  let ppfx := provider.data ++ ['/']
  let model_name :=
    if lpfx.isPrefixOf model_id.data then String.mk (model_id.data.drop lpfx.length)
    else if ppfx.isPrefixOf model_id.data then String.mk (model_id.data.drop ppfx.length)
    else model_id
  let mode_raw := entry.mode.getD "chat"
  let capabilities :=
    (CAPABILITY_MAPPING.filter (fun kv => (entry.flags.lookup kv.1).getD false)).map Prod.snd
  { id := model_name
    litellm_id := model_id
    provider := provider
    mode := (MODE_MAPPING.lookup mode_raw).getD mode_raw
    max_input_tokens :=
      match entry.max_input_tokens with
      | some v => some v
      | none => entry.max_tokens
    max_output_tokens := entry.max_output_tokens
    input_cost_per_1k :=
      match entry.input_cost_per_token with
      | some c => if c ≠ 0 then some (round_to (qmul c 1000) 8) else none
      | none => none
    output_cost_per_1k :=
      match entry.output_cost_per_token with
      | some c => if c ≠ 0 then some (round_to (qmul c 1000) 8) else none
      | none => none
    capabilities := if capabilities.isEmpty then none else some capabilities
    deprecated :=
      match entry.deprecation_date with
      | some d => d != ""
      | none => false
    deprecation_date :=
      match entry.deprecation_date with
      | some d => if d ≠ "" then some d else none
      | none => none }

/-- parse_model_entry (sync-models.py lines 124-183): drop the sample_spec
sentinel, image-size variant keys, and entries without a provider tag;
otherwise build the record. -/
def parse_model_entry (model_id : String) (entry : LiteLLMEntry) : Option ModelInfo :=
  if model_id == "sample_spec" then none
  else if "1024-x-".data.isPrefixOf model_id.data ∨ "512-x-".data.isPrefixOf model_id.data ∨
      "256-x-".data.isPrefixOf model_id.data then none
  else if entry.litellm_provider == "" then none
  else some (build_model_info model_id entry)

/-! ## build-bundle.py -/

/-- Generic JSON/YAML value, used for the configuration subtrees that
build-bundle.py copies into the bundle without inspecting them
(auth blocks, streaming and extraction recipes, fingerprints, stats). -/
inductive JVal where
  | null
  | bool (b : Bool)
  | num (q : ℚ)
  | str (s : String)
  | arr (elems : List JVal)
  | obj (fields : List (String × JVal))

/-- The characters Python re.escape (3.7 and later) prefixes with a
backslash. -/
def reSpecialChars : List Char :=
  ['(', ')', '[', ']', Char.ofNat 123, Char.ofNat 125, '?', '*', '+', '-',
   '|', '^', '$', '\\', '.', '&', '~', '#', ' ', '\t', '\n', '\r',
   Char.ofNat 11, Char.ofNat 12]

/-- Python re.escape on the character list of a string. -/
def re_escape (s : List Char) : List Char :=
  (s.map (fun c => if reSpecialChars.contains c then ['\\', c] else [c])).flatten

/-- Python `str.replace` of every (left-to-right, non-overlapping)
occurrence of the two-character sequence backslash-star by dot-star, as done
by `.replace(r"\*", ".*")` in glob_to_regex. -/
def replaceEscStar : List Char → List Char
  | '\\' :: '*' :: rest => '.' :: '*' :: replaceEscStar rest
  | c :: rest => c :: replaceEscStar rest
  | [] => []

/-- glob_to_regex (build-bundle.py lines 125-129):
`escaped = re.escape(pattern).replace(r"\*", ".*")` and return
`f"^{escaped}$"`. -/
def glob_to_regex (pattern : String) : String :=
  String.mk ('^' :: (replaceEscStar (re_escape pattern.data) ++ ['$']))

/-- One token of the regular expressions glob_to_regex emits: a literal
character, the dot wildcard, or dot-star. -/
inductive RTok where
  | lit (c : Char)
  | anyChar
  | anyStar
deriving DecidableEq

/-- Tokenizer for the regular expressions glob_to_regex emits (between the
anchors): a backslash escapes the next character, dot-star matches any run
of characters, a bare dot matches one character, anything else is a
literal. -/
def lexRegex : List Char → List RTok
  | '\\' :: c :: rest => .lit c :: lexRegex rest
  | '.' :: '*' :: rest => .anyStar :: lexRegex rest
  | '.' :: rest => .anyChar :: lexRegex rest
  | c :: rest => .lit c :: lexRegex rest
  | [] => []

/-- All suffixes of a character list, longest first (including the list
itself and the empty suffix). -/
def suffixes : List Char → List (List Char)
  | [] => [[]]
  | c :: rest => (c :: rest) :: suffixes rest

/-- Matching of a token list against an entire string: dot-star consumes an
arbitrary prefix. This is the standard semantics of the anchored regular
expressions produced by glob_to_regex. -/
def rmatch : List RTok → List Char → Bool
  | [], s => s.isEmpty
  | .lit _ :: _, [] => false
  | .lit c :: ts, x :: xs => c == x && rmatch ts xs
  | .anyChar :: _, [] => false
  | .anyChar :: ts, _ :: xs => rmatch ts xs
  | .anyStar :: ts, s => (suffixes s).any (fun s2 => rmatch ts s2)

/-- Whole-hostname acceptance of one of the regular expressions produced by
glob_to_regex: strip the leading caret and trailing dollar anchors (every
produced regex has them; re.escape escapes any caret or dollar inside the
pattern itself) and require the token list to match the whole candidate. -/
def regex_fullmatch (r : String) (s : String) : Bool :=
  let body := match r.data with
    | '^' :: rest => rest
    | l => l
  let body2 := if body.getLast? == some '$' then body.dropLast else body
  rmatch (lexRegex body2) s.data

/-- Python `str.replace(pat, "")`: delete every left-to-right,
non-overlapping occurrence of `pat`. The fuel argument (instantiated with
the length of the scanned list, which every step shortens when `pat` is
non-empty) makes the recursion structural. -/
def removeAllF (pat : List Char) : ℕ → List Char → List Char
  | _, [] => []
  | 0, s => s
  | fuel + 1, c :: rest =>
    if pat.isPrefixOf (c :: rest) then removeAllF pat fuel ((c :: rest).drop pat.length)
    else c :: removeAllF pat fuel rest

/-- Python `url.replace(pat, "")` on strings. -/
def str_replace_del (s : String) (pat : String) : String :=
  String.mk (removeAllF pat.data s.data.length s.data)

/-- Python `str.rstrip("/")`: remove every trailing slash. -/
def rstripSlash (s : String) : String :=
  String.mk ((s.data.reverse.dropWhile (fun c => c == '/')).reverse)

/-- The domain extraction applied to each base URL in build_domain_index
(build-bundle.py line 94):
`url.replace("https://", "").replace("http://", "").rstrip("/")`. -/
def url_to_domain (url : String) : String :=
  rstripSlash (str_replace_del (str_replace_del url "https://") "http://")

/-- One entry of the registry-level `domain_patterns` list
(build-bundle.py lines 105-110); its `pattern` and `provider` keys are
accessed unconditionally. -/
structure RegPatternEntry where
  pattern : String
  provider : String
deriving DecidableEq

/-- One provider object of registry.yaml as read by build_bundle
(build-bundle.py lines 206-216); every key is read with a `.get` default, so
each field is an Option. The YAML key `type` is spelled provider_type here
because `type` is reserved in Lean. -/
structure RegProvider where
  display_name : Option String
  provider_type : Option String
  domains : Option (List String)
  features : Option (List String)
  auth : Option JVal
  api_endpoint : Option String
  models_dev_id : Option String

/-- The parts of registry.yaml that build-bundle.py reads. `domain_lookup`
is tested with `"domain_lookup" in registry`, the others are read with
`.get` defaults; all four are Options accordingly. -/
structure Registry where
  version : Option String
  domain_lookup : Option (List (String × String))
  domain_patterns : Option (List RegPatternEntry)
  providers : Option (List (String × RegProvider))

/-- One endpoint object of a provider YAML file as read by
build_extraction_rules (build-bundle.py lines 148-156); every key is read
with a `.get` default. -/
structure Endpoint where
  path : Option String
  method : Option String
  request_type : Option String
  streaming : Option JVal
  request_extraction : Option JVal
  response_extraction : Option JVal

/-- One provider YAML configuration as read by build-bundle.py. `endpoints`
and `fingerprints` are tested with `in config`, the others read with `.get`
defaults. -/
structure ProviderConfig where
  base_urls : Option (List String)
  domains : Option (List String)
  endpoints : Option (List (String × Endpoint))
  auth : Option JVal
  response_headers : Option JVal
  model_families : Option JVal
  features : Option JVal
  fingerprints : Option JVal

/-- build_domain_index (build-bundle.py lines 82-97): start from the
registry domain_lookup table when present, then for every provider
configuration and every base URL assign `index[domain] = provider_id`.
The Python dict is modelled by its lookup function; each assignment
overrides the function at one key, so later assignments win, exactly as for
the dict. -/
def build_domain_index (registry : Registry)
    (provider_configs : List (String × ProviderConfig)) : String → Option String :=
  let index0 : String → Option String := fun d =>
    match registry.domain_lookup with
    | some tbl => tbl.lookup d
    | none => none
  provider_configs.foldl (fun index pc =>
    (pc.2.base_urls.getD []).foldl (fun index url =>
      fun d => if d = url_to_domain url then some pc.1 else index d) index) index0

/-- One element of the bundle domain_patterns list
(build-bundle.py lines 106-110 and 116-120). -/
structure DomainPattern where
  pattern : String
  provider : String
  regex : String
deriving DecidableEq

/-- build_domain_patterns (build-bundle.py lines 100-122): registry-level
pattern entries first, then, for every provider configuration, every
declared domain containing a star. -/
def build_domain_patterns (registry : Registry)
    (provider_configs : List (String × ProviderConfig)) : List DomainPattern :=
  let fromRegistry := (registry.domain_patterns.getD []).map (fun e =>
    DomainPattern.mk e.pattern e.provider (glob_to_regex e.pattern))
  let fromConfigs := (provider_configs.map (fun pc =>
    ((pc.2.domains.getD []).filter (fun d => d.data.contains '*')).map (fun d =>
      DomainPattern.mk d pc.1 (glob_to_regex d)))).flatten
  fromRegistry ++ fromConfigs

/-- One endpoint entry of the bundle extraction rules
(build-bundle.py lines 149-156). -/
structure EndpointRule where
  path : String
  method : String
  request_type : String
  streaming : JVal
  request_extraction : JVal
  response_extraction : JVal

/-- The per-provider extraction rules (build-bundle.py lines 140-146). -/
structure ExtractionRule where
  endpoints : List (String × EndpointRule)
  auth : JVal
  response_headers : JVal
  model_families : JVal
  features : JVal

/-- build_extraction_rules (build-bundle.py lines 132-160): providers whose
configuration has no `endpoints` key are skipped. -/
def build_extraction_rules (provider_configs : List (String × ProviderConfig)) :
    List (String × ExtractionRule) :=
  provider_configs.filterMap (fun pc =>
    match pc.2.endpoints with
    | none => none
    | some eps => some (pc.1,
      { endpoints := eps.map (fun ep =>
          (ep.1,
           { path := ep.2.path.getD ""
             method := ep.2.method.getD "POST"
             request_type := ep.2.request_type.getD "chat"
             streaming := ep.2.streaming.getD (JVal.obj [])
             request_extraction := ep.2.request_extraction.getD (JVal.obj [])
             response_extraction := ep.2.response_extraction.getD (JVal.obj []) }))
        auth := pc.2.auth.getD (JVal.obj [])
        response_headers := pc.2.response_headers.getD (JVal.obj [])
        model_families := pc.2.model_families.getD (JVal.obj [])
        features := pc.2.features.getD (JVal.obj []) }))

/-- build_fingerprints (build-bundle.py lines 163-171): providers whose
configuration has a `fingerprints` key contribute it unchanged. -/
def build_fingerprints (provider_configs : List (String × ProviderConfig)) :
    List (String × JVal) :=
  provider_configs.filterMap (fun pc => pc.2.fingerprints.map (fun fp => (pc.1, fp)))

/-- The parts of the generated models.json file that build-bundle.py reads:
`models.get("models", {})` and `models.get("stats", {})`
(build-bundle.py lines 201-202). Entries have the shape produced by
sync-models.py. -/
structure ModelsFile where
  models : Option (List (String × ModelInfo))
  stats : Option JVal

/-- load_models (build-bundle.py lines 74-79): return the parsed file when
it exists, and the fallback `{"models": {}, "providers": {}}` otherwise (its
`providers` key is never read by build_bundle and the fallback has no
`stats` key). The existence test on the path is modelled by the Option
argument. -/
def load_models (models_file : Option ModelsFile) : ModelsFile :=
  match models_file with
  | some m => m
  | none => { models := some [], stats := none }

/-- One provider metadata object of the bundle
(build-bundle.py lines 206-216). -/
structure ProviderMeta where
  id : String
  display_name : String
  provider_type : String
  domains : List String
  features : List String
  auth : JVal
  api_endpoint : Option String
  models_dev_id : Option String

/-- The bundle document assembled by build_bundle
(build-bundle.py lines 174-218). The `$schema` key is spelled schema. -/
structure Bundle where
  schema : String
  version : String
  bundle_version : String
  generated_at : String
  source : String
  providers : List (String × ProviderMeta)
  domain_index : String → Option String
  domain_patterns : List DomainPattern
  extraction_rules : List (String × ExtractionRule)
  fingerprints : List (String × JVal)
  models : List (String × ModelInfo)
  model_stats : JVal

/-- build_bundle (build-bundle.py lines 174-218). The generated_at timestamp
(datetime.now) is passed in as `now`; registry, provider configurations and
the optional models.json content are the file inputs loaded by lines
176-178. -/
def build_bundle (now : String) (registry : Registry)
    (provider_configs : List (String × ProviderConfig))
    (models_file : Option ModelsFile) : Bundle :=
  let models := load_models models_file
  { schema := "https://oisp.dev/schema/v0.1/bundle.schema.json"
    version := registry.version.getD "0.1"
    bundle_version := "1.0.0"
    generated_at := now
    source := "oisp-spec"
    providers := (registry.providers.getD []).map (fun pd =>
      (pd.1,
       { id := pd.1
         display_name := pd.2.display_name.getD pd.1
         provider_type := pd.2.provider_type.getD "cloud"
         domains := pd.2.domains.getD []
         features := pd.2.features.getD []
         auth := pd.2.auth.getD (JVal.obj [])
         api_endpoint := pd.2.api_endpoint
         models_dev_id := pd.2.models_dev_id }))
    domain_index := build_domain_index registry provider_configs
    domain_patterns := build_domain_patterns registry provider_configs
    extraction_rules := build_extraction_rules provider_configs
    fingerprints := build_fingerprints provider_configs
    models := models.models.getD []
    model_stats := models.stats.getD (JVal.obj []) }

/-- The arguments of one json.dump call in main
(build-bundle.py lines 244-246 and 259-260): indentation, sorted keys, and
whether the compact separators were passed. -/
structure JsonDumpArgs where
  indent : Option ℕ
  sort_keys : Bool
  compact_separators : Bool
deriving DecidableEq

/-- The files written by main (build-bundle.py lines 243-261): the primary
bundle at args.output, and, only when the minify flag is off, the minified
twin at args.output.with_suffix(".min.json"). The paths themselves are
boundary I/O and are not modelled; each write is recorded as the dump
arguments together with the document passed to json.dump. -/
structure MainOutput where
  primary : JsonDumpArgs × Bundle
  minified : Option (JsonDumpArgs × Bundle)

/-- main, writing part (build-bundle.py lines 243-261):
`indent = None if args.minify else 2`, the primary dump always uses
sort_keys and default separators, and the twin (written only when
`not args.minify`) uses compact separators and sort_keys. -/
def main_writes (minify : Bool) (bundle : Bundle) : MainOutput :=
  { primary := ({ indent := if minify then none else some 2, sort_keys := true,
                  compact_separators := false }, bundle)
    minified :=
      if !minify then
        some ({ indent := none, sort_keys := true, compact_separators := true }, bundle)
      else none }

/-- Reference description of the provider-configuration part of the domain
index, used to state what build_domain_index computes: the value at `d`
contributed by the base URLs of a single provider, later URLs taking
precedence. -/
def url_list_value (pid : String) : List String → String → Option String
  | [], _ => none
  | url :: rest, d =>
    match url_list_value pid rest d with
    | some p => some p
    | none => if d = url_to_domain url then some pid else none

/-- Reference description of the provider-configuration part of the domain
index: the value at `d` contributed by all provider configurations, later
configurations taking precedence. -/
def config_domain_value : List (String × ProviderConfig) → String → Option String
  | [], _ => none
  | pc :: rest, d =>
    match config_domain_value rest d with
    | some p => some p
    | none => url_list_value pc.1 (pc.2.base_urls.getD []) d

/-! ## Concrete inputs used by counterexamples and witnesses -/

/-- The current registry of the drift-comparator example of the spec:
`{"models": {"openai/gpt-4": {"input_cost_per_1k": 0.01}}}`. -/
def c1_current : CurrentRegistry :=
  ⟨[("openai/gpt-4", ⟨some (mkRat 1 100), none⟩)], []⟩

/-- The upstream snapshot of the drift-comparator example of the spec:
`{"openai": {"models": {"gpt-4": {"cost": {"input": 0.0000115}}}}}`. -/
def c1_upstream : List (String × UpstreamProvider) :=
  [("openai", ⟨[("gpt-4", ⟨some (mkRat 115 10000000), none⟩)]⟩)]

/-- An upstream snapshot with one provider p owning one model m. -/
def c3_upstream : List (String × UpstreamProvider) := [("p", ⟨[("m", ⟨none, none⟩)]⟩)]

/-- A current registry where model p/m has only an output cost. -/
def c5_skip_current : CurrentRegistry := ⟨[("p/m", ⟨none, some (mkRat 1 2)⟩)], ["p"]⟩

/-- An upstream snapshot where model p/m has only an output cost,
different from the one of c5_skip_current. -/
def c5_skip_upstream : List (String × UpstreamProvider) := [("p", ⟨[("m", ⟨none, some 2⟩)]⟩)]

/-- A current registry where model p/m has an input cost. -/
def c5_wit_current : CurrentRegistry := ⟨[("p/m", ⟨some (mkRat 1 100), none⟩)], ["p"]⟩

/-- An upstream snapshot where model p/m has a different input cost. -/
def c5_wit_upstream : List (String × UpstreamProvider) := [("p", ⟨[("m", ⟨some 1, none⟩)]⟩)]

/-- A registry.yaml with no optional key present. -/
def emptyRegistry : Registry := ⟨none, none, none, none⟩

/-- A provider configuration with one base URL that has a path component. -/
def c8_config : ProviderConfig :=
  ⟨some ["https://api.example.com/v1"], none, none, none, none, none, none, none⟩

/-- A LiteLLM entry with an input cost of 0.000002 per token. -/
def c9_entry : LiteLLMEntry :=
  ⟨"openai", none, none, none, none, some (mkRat 2 1000000), none, [], none⟩

/-- The record parse_model_entry produces for c9_entry. -/
def c9_info : ModelInfo := build_model_info "openai/gpt-test" c9_entry

/-- A LiteLLM entry with max_tokens 4096 and no max_input_tokens or
max_output_tokens. -/
def c10_entry : LiteLLMEntry :=
  ⟨"openai", none, none, none, some 4096, none, none, [], none⟩

/-- The record parse_model_entry produces for c10_entry. -/
def c10_info : ModelInfo := build_model_info "openai/gpt-4o" c10_entry


/-! # Theorems -/

/-! ## Bridge lemmas: the executable helpers equal the ℚ field operations -/

theorem qsub_eq (a b : ℚ) : qsub a b = a - b := (Rat.sub_def' a b).symm

theorem qmul_eq (a b : ℚ) : qmul a b = a * b := by
  unfold qmul
  rw [Rat.mul_def, Rat.normalize_eq_mkRat]

theorem qdiv_eq (a b : ℚ) : qdiv a b = a / b := by
  unfold qdiv
  rcases eq_or_ne b.num 0 with h | h
  · have hb : b = 0 := Rat.num_eq_zero.1 h
    rw [h, mul_zero, Rat.divInt_zero, hb, div_zero]
  · have ha : (a.den : ℤ) ≠ 0 := Int.ofNat_ne_zero.2 a.den_nz
    conv_rhs => rw [← Rat.divInt_self a, ← Rat.divInt_self b]
    rw [Rat.div_def, Rat.inv_divInt, Rat.divInt_mul_divInt _ _ ha h]

theorem qabs_eq (a : ℚ) : qabs a = |a| := by
  unfold qabs
  rcases le_or_lt 0 a.num with h | h
  · rw [Int.natAbs_of_nonneg h, Rat.mkRat_self, abs_of_nonneg (Rat.num_nonneg.1 h)]
  · have h2 : ((a.num.natAbs : ℤ)) = -a.num := Int.ofNat_natAbs_of_nonpos (le_of_lt h)
    have ha : a < 0 := by
      by_contra hc
      exact absurd (Rat.num_nonneg.2 (not_lt.1 hc)) (not_le.2 h)
    rw [h2, ← Rat.neg_mkRat, Rat.mkRat_self, abs_of_neg ha]

theorem ratFloor_eq (q : ℚ) : ratFloor q = ⌊q⌋ := by
  rw [Rat.floor_def]
  exact Int.fdiv_eq_ediv _ (by exact_mod_cast Nat.zero_le q.den)

theorem mkRat_tol_eq : (mkRat 1 1000000000 : ℚ) = 1 / 1000000000 := by
  rw [← Rat.divInt_ofNat, Rat.divInt_eq_div]
  norm_num

/-- Characterization of the close comparison in terms of the ℚ field
operations: present values compare by |a - b| < 1e-9. -/
theorem close_some_some (x y : ℚ) :
    close (some x) (some y) = true ↔ |x - y| < 1 / 1000000000 := by
  show decide (qabs (qsub x y) < mkRat 1 1000000000) = true ↔ _
  rw [decide_eq_true_eq, qabs_eq, qsub_eq, mkRat_tol_eq]

/-! ## Projections of compare_models -/

theorem compare_models_new_models (cur : CurrentRegistry)
    (up : List (String × UpstreamProvider)) :
    (compare_models cur up).new_models =
      ((extract_models_from_models_dev up).map Prod.fst).filter
        (fun k => !(cur.models.map Prod.fst).contains k) := rfl

theorem compare_models_new_providers (cur : CurrentRegistry)
    (up : List (String × UpstreamProvider)) :
    (compare_models cur up).new_providers =
      (up.map Prod.fst).filter (fun p => !cur.providers.contains p) := rfl

theorem compare_models_pricing_changes (cur : CurrentRegistry)
    (up : List (String × UpstreamProvider)) :
    (compare_models cur up).pricing_changes =
      ((cur.models.map Prod.fst).filter
        (fun k => ((extract_models_from_models_dev up).map Prod.fst).contains k)).filterMap
        (pricingChangeAt cur.models (extract_models_from_models_dev up)) := rfl

/-! ## C1 -/

/-- C1, counterexample: on the current registry
`{"models": {"openai/gpt-4": {"input_cost_per_1k": 0.01}}}` and upstream
`{"openai": {"models": {"gpt-4": {"cost": {"input": 0.0000115}}}}}`, the
comparator does report exactly one pricing change for openai/gpt-4, but its
new input cost is 0.0000115 / 1000 = 1.15e-8, not 0.0115: the code divides
the upstream cost by 1000 instead of multiplying it. -/
theorem C1_counterexample :
    ((compare_models c1_current c1_upstream).pricing_changes.map PricingChange.new_input =
      [some (mkRat 23 2000000000)]) ∧
    (mkRat 23 2000000000 : ℚ) ≠ 115 / 10000 := by
  constructor
  · decide
  · have h : (115 / 10000 : ℚ) = mkRat 115 10000 := by
      rw [← Rat.divInt_ofNat, Rat.divInt_eq_div]; norm_num
    rw [h]
    decide

/-- C1, amended: on the current registry
`{"models": {"openai/gpt-4": {"input_cost_per_1k": 0.01}}}` and upstream
`{"openai": {"models": {"gpt-4": {"cost": {"input": 0.0000115}}}}}`, the
comparison reports exactly one pricing change, for key openai/gpt-4, from
old input cost 0.01 to new input cost 0.0000115 / 1000 = 1.15e-8 (the
comparator divides the upstream value by 1000), and the changed flag is
true. -/
theorem C1_amended_thm :
    (compare_models c1_current c1_upstream).pricing_changes =
      [⟨"openai/gpt-4", some (mkRat 1 100), some (mkRat 23 2000000000), none, none⟩] ∧
    has_changes (compare_models c1_current c1_upstream) = true ∧
    (mkRat 23 2000000000 : ℚ) = (mkRat 115 10000000 : ℚ) / 1000 ∧
    (mkRat 1 100 : ℚ) = 1 / 100 := by
  refine ⟨by decide, by decide, ?_, ?_⟩
  · rw [← qdiv_eq]; decide
  · rw [← Rat.divInt_ofNat, Rat.divInt_eq_div]; norm_num

/-! ## C2 -/

/-- C2, counterexample: when the generated models registry file is absent,
build_bundle does not fail; it produces a bundle whose models mapping is
empty (load_models substitutes the empty fallback registry), contradicting
the claim that the build stops and never emits a bundle with an empty models
mapping merely because the registry file was missing. -/
theorem C2_counterexample :
    (build_bundle "2024-01-01T00:00:00+00:00" emptyRegistry [] none).models = [] ∧
    (build_bundle "2024-01-01T00:00:00+00:00" emptyRegistry [] none).bundle_version =
      "1.0.0" :=
  ⟨rfl, rfl⟩

/-- C2, amended: if the canonical registry file is absent, load_models
returns the empty fallback registry and the bundle build proceeds normally,
emitting a bundle whose models mapping is empty and whose other content is
identical to a build from an explicitly empty registry file; there is no
fatal precondition failure. -/
theorem C2_amended_thm (now : String) (registry : Registry)
    (provider_configs : List (String × ProviderConfig)) :
    load_models none = { models := some [], stats := none } ∧
    (build_bundle now registry provider_configs none).models = [] ∧
    build_bundle now registry provider_configs none =
      build_bundle now registry provider_configs (some { models := some [], stats := none }) :=
  ⟨rfl, rfl, rfl⟩

/-! ## C4 -/

/-- C4, counterexample: on a current registry whose providers dict contains
p but with no models, against an empty upstream snapshot, the
removed-providers collection is non-empty while the changed flag is false:
removed providers do not influence the flag. -/
theorem C4_counterexample :
    (compare_models ⟨[], ["p"]⟩ []).removed_providers = ["p"] ∧
    has_changes (compare_models ⟨[], ["p"]⟩ []) = false := by decide

/-- C4, amended: the changed flag is true iff at least one of new models,
removed models, new providers, or pricing changes is non-empty; the
removed-providers collection does not influence it. The report file content
is empty iff no changes were detected or the rendered report itself is empty
(in particular, when the flag is false the file is still created, empty). -/
theorem C4_amended_thm (current : CurrentRegistry)
    (upstream : List (String × UpstreamProvider)) (rendered : String) :
    (has_changes (compare_models current upstream) = true ↔
      ((compare_models current upstream).new_models ≠ [] ∨
       (compare_models current upstream).removed_models ≠ [] ∨
       (compare_models current upstream).new_providers ≠ [] ∨
       (compare_models current upstream).pricing_changes ≠ [])) ∧
    (report_file_content rendered (compare_models current upstream) = "" ↔
      (has_changes (compare_models current upstream) = false ∨ rendered = "")) := by
  generalize compare_models current upstream = r
  constructor
  · simp [has_changes, List.isEmpty_iff, or_assoc]
  · unfold report_file_content
    rcases h : has_changes r with _ | _
    · simp [h]
    · simp [h]

/-! ## C6 -/

/-- C6, counterexample: when the minify command-line flag is set, only the
primary file is written and no minified twin is produced, contradicting the
claim that the twin is always written regardless of command-line options. -/
theorem C6_counterexample :
    (main_writes true (build_bundle "t" emptyRegistry [] none)).minified = none := rfl

/-- C6, amended: when the minify flag is off, the primary file is written
pretty-printed (indent 2, sorted keys) and a minified twin with identical
bundle content (no indentation, compact separators, sorted keys) is written
alongside it; when the minify flag is set, only the primary file is written
(itself with indent None) and no twin is produced. -/
theorem C6_amended_thm (bundle : Bundle) :
    ((main_writes false bundle).primary =
        ({ indent := some 2, sort_keys := true, compact_separators := false }, bundle) ∧
     (main_writes false bundle).minified =
        some ({ indent := none, sort_keys := true, compact_separators := true }, bundle)) ∧
    ((main_writes true bundle).primary =
        ({ indent := none, sort_keys := true, compact_separators := false }, bundle) ∧
     (main_writes true bundle).minified = none) :=
  ⟨⟨rfl, rfl⟩, rfl, rfl⟩

/-! ## C7 -/

/-- C7: the compiled matcher for the glob pattern *.azure.example.com
(regex metacharacters escaped except the star, the star becoming a match of
any run of characters, the whole pattern anchored) accepts
foo.azure.example.com and rejects azure.example.com and
foo.azure.example.com.evil.net. -/
theorem C7_thm :
    glob_to_regex "*.azure.example.com" = "^.*\\.azure\\.example\\.com$" ∧
    regex_fullmatch (glob_to_regex "*.azure.example.com") "foo.azure.example.com" = true ∧
    regex_fullmatch (glob_to_regex "*.azure.example.com") "azure.example.com" = false ∧
    regex_fullmatch (glob_to_regex "*.azure.example.com") "foo.azure.example.com.evil.net" =
      false := by
  refine ⟨by decide, by decide, by decide, by decide⟩

/-! ## C8 -/

/-- C8, counterexample: a declared base URL with a path component,
https://api.example.com/v1, is indexed under the key api.example.com/v1,
which still contains the path and is not a bare hostname; the bare hostname
api.example.com is not a key of the index. -/
theorem C8_counterexample :
    build_domain_index emptyRegistry [("p", c8_config)] "api.example.com/v1" = some "p" ∧
    build_domain_index emptyRegistry [("p", c8_config)] "api.example.com" = none ∧
    ("api.example.com/v1").data.contains '/' = true := by
  refine ⟨by decide, by decide, by decide⟩

/-! ## C3 -/

/-- C3, counterexample: with an empty current registry and an upstream
snapshot containing the single new provider p with model m, the provider is
listed under new-providers and its model p/m nevertheless also appears in
new-models, contradicting the claim that models of a wholly new provider
never appear there. -/
theorem C3_counterexample :
    (compare_models ⟨[], []⟩ c3_upstream).new_providers = ["p"] ∧
    (compare_models ⟨[], []⟩ c3_upstream).new_models = ["p/m"] := by decide

/-- C3, amended: every provider present in the upstream snapshot but absent
from the current provider set is listed exactly once under new-providers,
and each of its models whose key is not in the current models dict also
appears under new-models: the model set difference does not exclude the
models of wholly new providers. -/
theorem C3_amended_thm (current : CurrentRegistry)
    (upstream : List (String × UpstreamProvider)) (p m : String)
    (P : UpstreamProvider) (M : UpstreamModel)
    (hnodup : (upstream.map Prod.fst).Nodup)
    (hp : (p, P) ∈ upstream)
    (hpnew : current.providers.contains p = false)
    (hm : (m, M) ∈ P.models)
    (hmnew : (current.models.map Prod.fst).contains (p ++ "/" ++ m) = false) :
    (compare_models current upstream).new_providers.count p = 1 ∧
    (p ++ "/" ++ m) ∈ (compare_models current upstream).new_models := by
  constructor
  · rw [compare_models_new_providers]
    have hmem : p ∈ upstream.map Prod.fst := List.mem_map.mpr ⟨(p, P), hp, rfl⟩
    have hfil : p ∈ (upstream.map Prod.fst).filter (fun q => !current.providers.contains q) :=
      List.mem_filter.mpr ⟨hmem, by simpa using hpnew⟩
    exact List.count_eq_one_of_mem (hnodup.filter _) hfil
  · rw [compare_models_new_models]
    apply List.mem_filter.mpr
    refine ⟨?_, by simpa using hmnew⟩
    apply List.mem_map.mpr
    refine ⟨(p ++ "/" ++ m,
      FlatModel.mk p m (convUpstreamCost M.cost_input) (convUpstreamCost M.cost_output)
        "chat"), ?_, rfl⟩
    unfold extract_models_from_models_dev
    apply List.mem_flatten.mpr
    exact ⟨_, List.mem_map.mpr ⟨(p, P), hp, rfl⟩, List.mem_map.mpr ⟨(m, M), hm, rfl⟩⟩

/-- C3, witness for the amended theorem at the concrete snapshot
c3_upstream against an empty current registry. -/
theorem C3_amended_witness :
    (compare_models ⟨[], []⟩ c3_upstream).new_providers.count "p" = 1 ∧
    ("p" ++ "/" ++ "m") ∈ (compare_models ⟨[], []⟩ c3_upstream).new_models :=
  C3_amended_thm ⟨[], []⟩ c3_upstream "p" "m" ⟨[("m", ⟨none, none⟩)]⟩ ⟨none, none⟩
    (by decide) (by decide) (by decide) (by decide) (by decide)

/-! ## C5 -/

/-- Every pricing change produced for a key carries that key in its model
field (compare-models.py line 105). -/
theorem pricingChangeAt_model (cms : List (String × CurrentModel))
    (ums : List (String × FlatModel)) (k : String) (pc : PricingChange)
    (h : pricingChangeAt cms ums k = some pc) : pc.model = k := by
  simp only [pricingChangeAt] at h
  split at h
  · exact Option.noConfusion h
  · split at h
    · injection h with h2
      rw [← h2]
    · exact Option.noConfusion h

/-- C5, counterexample: for key p/m both input costs are absent while the
output costs differ (0.5 in the current registry against 0.002 upstream,
which are not close), yet the comparator records no pricing change at all:
the key is skipped as soon as both input costs are absent. -/
theorem C5_counterexample :
    (compare_models c5_skip_current c5_skip_upstream).pricing_changes = [] ∧
    ((c5_skip_current.models.lookup "p/m").getD default).output_cost_per_1k =
      some (mkRat 1 2) ∧
    (((extract_models_from_models_dev c5_skip_upstream).lookup "p/m").getD
        default).output_cost_per_1k = some (mkRat 1 500) ∧
    close (some (mkRat 1 2)) (some (mkRat 1 500)) = false := by decide

/-- C5, amended: the comparison of present cost values follows the
equality-with-tolerance rule (equal iff both absent; unequal if exactly one
absent; otherwise equal iff the absolute difference is below 1e-9), and for
a key present in both sides a PricingChange is recorded iff one of the two
cost pairs is not close, EXCEPT that when both input costs are absent the
key is skipped entirely and no PricingChange is recorded for it, even if
the output costs differ. -/
theorem C5_amended_thm (current : CurrentRegistry)
    (upstream : List (String × UpstreamProvider)) (k : String)
    (cm : CurrentModel) (um : FlatModel)
    (hcm : (current.models.lookup k).getD default = cm)
    (hum : ((extract_models_from_models_dev upstream).lookup k).getD default = um)
    (hk1 : k ∈ current.models.map Prod.fst)
    (hk2 : k ∈ (extract_models_from_models_dev upstream).map Prod.fst) :
    (close none none = true ∧
     (∀ x : ℚ, close none (some x) = false ∧ close (some x) none = false) ∧
     (∀ x y : ℚ, close (some x) (some y) = true ↔ |x - y| < 1 / 1000000000)) ∧
    ((cm.input_cost_per_1k = none ∧ um.input_cost_per_1k = none) →
      ∀ pc ∈ (compare_models current upstream).pricing_changes, pc.model ≠ k) ∧
    (¬(cm.input_cost_per_1k = none ∧ um.input_cost_per_1k = none) →
      ((∃ pc ∈ (compare_models current upstream).pricing_changes, pc.model = k) ↔
        (close cm.input_cost_per_1k um.input_cost_per_1k = false ∨
         close cm.output_cost_per_1k um.output_cost_per_1k = false))) := by
  have heq : pricingChangeAt current.models (extract_models_from_models_dev upstream) k =
      if cm.input_cost_per_1k = none ∧ um.input_cost_per_1k = none then none
      else if close cm.input_cost_per_1k um.input_cost_per_1k = false ∨
          close cm.output_cost_per_1k um.output_cost_per_1k = false then
        some ⟨k, cm.input_cost_per_1k, um.input_cost_per_1k, cm.output_cost_per_1k,
          um.output_cost_per_1k⟩
      else none := by
    simp only [pricingChangeAt, hcm, hum]
  refine ⟨⟨rfl, fun x => ⟨rfl, rfl⟩, fun x y => close_some_some x y⟩, ?_, ?_⟩
  · intro hboth pc hmem
    intro hmodel
    rw [compare_models_pricing_changes] at hmem
    obtain ⟨k2, _, hk2eq⟩ := List.mem_filterMap.1 hmem
    have hm2 := pricingChangeAt_model _ _ _ _ hk2eq
    have hkk : k2 = k := hm2.symm.trans hmodel
    rw [hkk, heq, if_pos hboth] at hk2eq
    exact Option.noConfusion hk2eq
  · intro hnboth
    constructor
    · rintro ⟨pc, hmem, hmodel⟩
      rw [compare_models_pricing_changes] at hmem
      obtain ⟨k2, _, hk2eq⟩ := List.mem_filterMap.1 hmem
      have hm2 := pricingChangeAt_model _ _ _ _ hk2eq
      have hkk : k2 = k := hm2.symm.trans hmodel
      rw [hkk, heq, if_neg hnboth] at hk2eq
      by_cases hC : close cm.input_cost_per_1k um.input_cost_per_1k = false ∨
          close cm.output_cost_per_1k um.output_cost_per_1k = false
      · exact hC
      · rw [if_neg hC] at hk2eq
        exact Option.noConfusion hk2eq
    · intro hC
      refine ⟨⟨k, cm.input_cost_per_1k, um.input_cost_per_1k, cm.output_cost_per_1k,
        um.output_cost_per_1k⟩, ?_, rfl⟩
      rw [compare_models_pricing_changes]
      apply List.mem_filterMap.2
      refine ⟨k, ?_, ?_⟩
      · apply List.mem_filter.2
        refine ⟨hk1, ?_⟩
        simp only [List.contains, decide_eq_true_eq]
        exact List.elem_iff.mpr hk2
      · rw [heq, if_neg hnboth, if_pos hC]

/-- C5, witness for the amended theorem: for key p/m with input costs 0.01
in the current registry and 0.001 flattened from upstream. -/
theorem C5_amended_witness :
    (close none none = true ∧
     (∀ x : ℚ, close none (some x) = false ∧ close (some x) none = false) ∧
     (∀ x y : ℚ, close (some x) (some y) = true ↔ |x - y| < 1 / 1000000000)) ∧
    ((some (mkRat 1 100) = (none : Option ℚ) ∧ some (mkRat 1 1000) = (none : Option ℚ)) →
      ∀ pc ∈ (compare_models c5_wit_current c5_wit_upstream).pricing_changes,
        pc.model ≠ "p/m") ∧
    (¬(some (mkRat 1 100) = (none : Option ℚ) ∧ some (mkRat 1 1000) = (none : Option ℚ)) →
      ((∃ pc ∈ (compare_models c5_wit_current c5_wit_upstream).pricing_changes,
          pc.model = "p/m") ↔
        (close (some (mkRat 1 100)) (some (mkRat 1 1000)) = false ∨
         close (none : Option ℚ) (none : Option ℚ) = false))) :=
  C5_amended_thm c5_wit_current c5_wit_upstream "p/m" ⟨some (mkRat 1 100), none⟩
    ⟨"p", "m", some (mkRat 1 1000), none, "chat"⟩ (by decide) (by decide) (by decide)
    (by decide)

/-- Inner fold of build_domain_index over the base URLs of one provider:
the resulting lookup returns the value contributed by the URLs (later URLs
winning) and falls back to the previous index. -/
theorem urls_foldl_value (pid : String) (urls : List String)
    (index : String → Option String) (d : String) :
    (urls.foldl (fun index url =>
      fun d => if d = url_to_domain url then some pid else index d) index) d =
    match url_list_value pid urls d with
    | some p => some p
    | none => index d := by
  induction urls generalizing index with
  | nil => rfl
  | cons u us ih =>
    simp only [List.foldl_cons, url_list_value]
    rw [ih]
    rcases h : url_list_value pid us d with _ | p
    · by_cases hd : d = url_to_domain u
      · simp [hd]
      · simp [hd]
    · simp

/-- Outer fold of build_domain_index over the provider configurations: the
resulting lookup returns the value contributed by the configurations (later
configurations winning) and falls back to the initial index. -/
theorem configs_foldl_value (provider_configs : List (String × ProviderConfig))
    (index : String → Option String) (d : String) :
    (provider_configs.foldl (fun index pc =>
      (pc.2.base_urls.getD []).foldl (fun index url =>
        fun d => if d = url_to_domain url then some pc.1 else index d) index) index) d =
    match config_domain_value provider_configs d with
    | some p => some p
    | none => index d := by
  induction provider_configs generalizing index with
  | nil => rfl
  | cons pc rest ih =>
    simp only [List.foldl_cons, config_domain_value]
    rw [ih, urls_foldl_value]
    rcases h : config_domain_value rest d with _ | p
    · rfl
    · rfl

/-- C8, amended: the exact domain index is the union of the registry-level
domain-lookup table with, for every provider configuration and every
declared base URL, an entry mapping the URL with its scheme prefix
occurrences removed and trailing slashes stripped (any path component is
retained, see the counterexample) to that provider id; provider-config
entries override the registry table, and later configurations override
earlier ones. -/
theorem C8_amended_thm (registry : Registry)
    (provider_configs : List (String × ProviderConfig)) (d : String) :
    build_domain_index registry provider_configs d =
      match config_domain_value provider_configs d with
      | some p => some p
      | none =>
        match registry.domain_lookup with
        | some tbl => tbl.lookup d
        | none => none :=
  configs_foldl_value provider_configs _ d

/-! ## C9 -/

/-- Records returned by parse_model_entry are exactly those built by
build_model_info (sync-models.py lines 149-183). -/
theorem parse_model_entry_some (model_id : String) (entry : LiteLLMEntry) (r : ModelInfo)
    (h : parse_model_entry model_id entry = some r) : r = build_model_info model_id entry := by
  simp only [parse_model_entry] at h
  split at h
  · exact Option.noConfusion h
  · split at h
    · exact Option.noConfusion h
    · split at h
      · exact Option.noConfusion h
      · injection h with h2
        rw [← h2]

/-- C9: for every upstream entry that the normalizer does not exclude, each
per-token cost field that is present and non-zero is converted to cost per
1000 tokens by multiplying by 1000 and rounding (half to even) to 8 decimal
digits; a cost field that is absent or exactly zero is omitted from the
record; and 0.000002 per token yields exactly 0.002 per 1000 tokens. -/
theorem C9_thm (model_id : String) (entry : LiteLLMEntry) (r : ModelInfo)
    (h : parse_model_entry model_id entry = some r) :
    (∀ c : ℚ, entry.input_cost_per_token = some c → c ≠ 0 →
      r.input_cost_per_1k = some (round_to (c * 1000) 8)) ∧
    (∀ c : ℚ, entry.output_cost_per_token = some c → c ≠ 0 →
      r.output_cost_per_1k = some (round_to (c * 1000) 8)) ∧
    ((entry.input_cost_per_token = none ∨ entry.input_cost_per_token = some 0) →
      r.input_cost_per_1k = none) ∧
    ((entry.output_cost_per_token = none ∨ entry.output_cost_per_token = some 0) →
      r.output_cost_per_1k = none) ∧
    round_to ((mkRat 2 1000000) * 1000) 8 = mkRat 2 1000 := by
  have hr := parse_model_entry_some model_id entry r h
  subst hr
  refine ⟨?_, ?_, ?_, ?_, ?_⟩
  · intro c hc hc0
    simp only [build_model_info, hc]
    rw [if_pos hc0, qmul_eq]
  · intro c hc hc0
    simp only [build_model_info, hc]
    rw [if_pos hc0, qmul_eq]
  · intro hd
    rcases hd with hc | hc <;> simp [build_model_info, hc]
  · intro hd
    rcases hd with hc | hc <;> simp [build_model_info, hc]
  · rw [← qmul_eq]
    decide

/-- C9, witness at an entry with input_cost_per_token 0.000002 and no
output cost. -/
theorem C9_witness :
    parse_model_entry "openai/gpt-test" c9_entry = some c9_info ∧
    c9_info.input_cost_per_1k = some (round_to ((mkRat 2 1000000) * 1000) 8) ∧
    c9_info.output_cost_per_1k = none ∧
    round_to ((mkRat 2 1000000) * 1000) 8 = mkRat 2 1000 := by
  have h : parse_model_entry "openai/gpt-test" c9_entry = some c9_info := by decide
  have hc := C9_thm "openai/gpt-test" c9_entry c9_info h
  exact ⟨h, hc.1 (mkRat 2 1000000) (by decide) (by decide),
    hc.2.2.2.1 (Or.inl (by decide)), hc.2.2.2.2⟩

/-! ## C10 -/

/-- C10: for every upstream entry that the normalizer does not exclude, if
the entry has max_tokens but no max_input_tokens then the produced record
takes its max_input_tokens from max_tokens; and max_output_tokens is copied
from the entry exactly when present, never defaulted from max_tokens. -/
theorem C10_thm (model_id : String) (entry : LiteLLMEntry) (r : ModelInfo) (t : ℤ)
    (h : parse_model_entry model_id entry = some r)
    (ht : entry.max_tokens = some t)
    (hni : entry.max_input_tokens = none) :
    r.max_input_tokens = some t ∧ r.max_output_tokens = entry.max_output_tokens := by
  have hr := parse_model_entry_some model_id entry r h
  subst hr
  constructor
  · simp [build_model_info, hni, ht]
  · simp [build_model_info]

/-- C10, witness at an entry with max_tokens 4096 and neither
max_input_tokens nor max_output_tokens. -/
theorem C10_witness :
    parse_model_entry "openai/gpt-4o" c10_entry = some c10_info ∧
    c10_info.max_input_tokens = some 4096 ∧
    c10_info.max_output_tokens = none := by
  have h : parse_model_entry "openai/gpt-4o" c10_entry = some c10_info := by decide
  have hc := C10_thm "openai/gpt-4o" c10_entry c10_info 4096 h (by decide) (by decide)
  exact ⟨h, hc.1, hc.2.trans (by decide)⟩
